import Mathlib

/-!
Verification development for the multi-source COVID-19 data acquisition
pipeline of src/data_fetcher.py (class VaccinationDataFetcher) together
with the constants of src/config.py, shallowly embedded in Lean.
DataFrames are embedded as row-oriented tables of cells, Python floats
as exact rationals, and Python exceptions as an error type threaded
through Except.  The rationals are implemented here as a reduced
fraction type whose arithmetic is structural recursion only, and all
string computation is performed on character lists, so that every
concrete instance reduces under kernel evaluation.
-/

namespace CovidFetch

/-- Fuel-based Euclid so that the gcd reduces by kernel computation;
the fuel b + 1 always suffices because the third argument strictly
decreases at every step. -/
def gcdFuel : Nat → Nat → Nat → Nat
  | 0, a, _ => a
  | _ + 1, a, 0 => a
  | fuel + 1, a, b + 1 => gcdFuel fuel (b + 1) (a % (b + 1))

/-- Greatest common divisor on naturals. -/
def gcdN (a b : Nat) : Nat := gcdFuel (b + 1) a b

/-- Exact rational numbers with a positive denominator and a reduced
fraction, maintained by the smart constructor normFrac.  This is the
embedding of Python float values; the binary rounding of concrete
doubles is outside the model, which computes exactly. -/
structure Frac where
  num : Int
  den : Int
  deriving DecidableEq, Repr

/-- Builds the reduced, positive-denominator representation; a zero
denominator collapses to zero and is never relied upon (every division
in the embedding is guarded where the source can divide by zero). -/
def normFrac (n d : Int) : Frac :=
  if d = 0 then ⟨0, 1⟩
  else
    let n2 : Int := if d < 0 then -n else n
    let d2 : Int := if d < 0 then -d else d
    let g : Int := (gcdN n2.natAbs d2.natAbs : Int)
    if g = 0 then ⟨0, 1⟩ else ⟨n2 / g, d2 / g⟩

/-- Embeds a Python int into the rationals. -/
def Frac.ofInt (n : Int) : Frac := ⟨n, 1⟩

instance (n : Nat) : OfNat Frac n := ⟨Frac.ofInt (n : Int)⟩

instance : Add Frac := ⟨fun a b => normFrac (a.num * b.den + b.num * a.den) (a.den * b.den)⟩

instance : Sub Frac := ⟨fun a b => normFrac (a.num * b.den - b.num * a.den) (a.den * b.den)⟩

instance : Neg Frac := ⟨fun a => ⟨-a.num, a.den⟩⟩

instance : Mul Frac := ⟨fun a b => normFrac (a.num * b.num) (a.den * b.den)⟩

instance : Div Frac := ⟨fun a b => normFrac (a.num * b.den) (a.den * b.num)⟩

/-- Boolean strict order; denominators are positive. -/
def Frac.blt (a b : Frac) : Bool := a.num * b.den < b.num * a.den

/-- Mathematical floor of a rational. -/
def Frac.floor (q : Frac) : Int := Int.fdiv q.num q.den

/-- Truncation of a rational toward zero; embeds Python int() and
numpy astype(int). -/
def Frac.trunc (q : Frac) : Int := Int.tdiv q.num q.den

/-- Rounding to two decimal places with ties to even; embeds the
pandas round(x, 2) used by the source (numpy rounds half to even; the
embedding rounds the exact decimal value). -/
def round2 (q : Frac) : Frac :=
  let n : Frac := q * 100
  let f : Int := n.floor
  let diff : Frac := n - Frac.ofInt f
  let r : Int :=
    if diff.blt (normFrac 1 2) then f
    else if (normFrac 1 2).blt diff then f + 1
    else if f % 2 = 0 then f else f + 1
  normFrac r 100

/-- Powers of ten as integers. -/
def pow10 : Nat → Int
  | 0 => 1
  | k + 1 => 10 * pow10 k

/-- Cell values of an embedded pandas DataFrame: strings, numbers
(Python ints and floats, both embedded as exact rationals), and null
(NaN / None). -/
inductive Value where
  | str (s : String)
  | num (q : Frac)
  | null
  deriving DecidableEq, Repr

/-- Row-oriented embedding of a pandas DataFrame: a list of column
names and a list of rows, each row listing one cell per column. -/
structure Table where
  header : List String
  rows : List (List Value)
  deriving DecidableEq, Repr

/-- Characters of a string. -/
def chars (s : String) : List Char := s.toList

/-- Does the first list start with the second? -/
def startsWithL : List Char → List Char → Bool
  | _, [] => true
  | [], _ :: _ => false
  | a :: as, b :: bs => a == b && startsWithL as bs

/-- Substring test on character lists, embedding the Python membership
operator on strings (needle in haystack). -/
def hasSubL : List Char → List Char → Bool
  | [], pat => pat.isEmpty
  | a :: as, pat => startsWithL (a :: as) pat || hasSubL as pat

/-- Substring test on strings. -/
def strHas (hay pat : String) : Bool := hasSubL (chars hay) (chars pat)

/-- ASCII lower-casing of one character; embeds str.lower for the
ASCII keywords the source matches on. -/
def charLower (c : Char) : Char :=
  if 'A' ≤ c && c ≤ 'Z' then Char.ofNat (c.toNat + 32) else c

/-- ASCII lower-casing of a string. -/
def strLower (s : String) : String := String.mk ((chars s).map charLower)

/-- Splits a character list at every occurrence of the separator. -/
def splitOnC (sep : Char) : List Char → List (List Char)
  | [] => [[]]
  | c :: rest =>
    let r := splitOnC sep rest
    if c == sep then [] :: r
    else
      match r with
      | [] => [[c]]
      | g :: gs => (c :: g) :: gs

/-- Accumulator pass of decimal digit parsing. -/
def digitsToNatAux : Nat → List Char → Option Nat
  | acc, [] => some acc
  | acc, c :: rest =>
    if '0' ≤ c && c ≤ '9' then digitsToNatAux (acc * 10 + (c.toNat - '0'.toNat)) rest
    else none

/-- Parses a nonempty list of decimal digits. -/
def digitsToNat : List Char → Option Nat
  | [] => none
  | l => digitsToNatAux 0 l

/-- Parses an optionally signed decimal integer, as pandas type
inference does for integer cells. -/
def parseIntL : List Char → Option Int
  | '-' :: rest => (digitsToNat rest).map (fun n => -(n : Int))
  | l => (digitsToNat l).map (fun n => (n : Int))

/-- Parses an unsigned decimal numeral with at most one decimal point
into an exact rational. -/
def parseFracL (l : List Char) : Option Frac :=
  match splitOnC '.' l with
  | [a] => (digitsToNat a).map (fun n => Frac.ofInt (n : Int))
  | [a, b] =>
    match digitsToNat a, digitsToNat b with
    | some n, some f => some (Frac.ofInt (n : Int) + normFrac (f : Int) (pow10 b.length))
    | _, _ => none
  | _ => none

/-- Parses an optionally signed decimal numeral into an exact
rational; embeds float parsing of the finite decimal numerals the
source feeds through this path. -/
def parseFloatL : List Char → Option Frac
  | '-' :: rest => (parseFracL rest).map (fun q => -q)
  | l => parseFracL l

/-- Removes comma thousands separators, str.replace of a comma by the
empty string. -/
def stripCommas (s : String) : String :=
  String.mk ((chars s).filter (fun c => c != ','))

/-- Index of a named column in the header, if present. -/
def colIdx (t : Table) (name : String) : Option Nat :=
  t.header.findIdx? (fun h => h == name)

/-- Does the table have a column of this name? -/
def hasCol (t : Table) (name : String) : Bool := (colIdx t name).isSome

/-- Values of a named column, top to bottom. -/
def getCol (t : Table) (name : String) : Option (List Value) :=
  (colIdx t name).map (fun i => t.rows.map (fun r => r.getD i Value.null))

/-- Column assignment df[name] = values: replaces the column in place
when the name exists, appends a new last column otherwise. -/
def setCol (t : Table) (name : String) (vals : List Value) : Table :=
  match colIdx t name with
  | some i => ⟨t.header, (t.rows.zip vals).map (fun rv => rv.1.set i rv.2)⟩
  | none => ⟨t.header ++ [name], (t.rows.zip vals).map (fun rv => rv.1 ++ [rv.2])⟩

/-- Column assignment of one scalar broadcast to every row. -/
def setColScalar (t : Table) (name : String) (v : Value) : Table :=
  match colIdx t name with
  | some i => ⟨t.header, t.rows.map (fun r => r.set i v)⟩
  | none => ⟨t.header ++ [name], t.rows.map (fun r => r ++ [v])⟩

/-- Renaming of columns by an association list, df.rename(columns=m)
restricted to names that exist as the source does. -/
def renameCols (t : Table) (m : List (String × String)) : Table :=
  ⟨t.header.map (fun h => match m.lookup h with | some h2 => h2 | none => h), t.rows⟩

/-- Rows whose cell in the named column equals the given value,
df[df[name] == v].  The source only filters on columns it has
validated to exist; a missing column keeps no row. -/
def filterRowsEq (t : Table) (name : String) (v : Value) : Table :=
  match colIdx t name with
  | some i => ⟨t.header, t.rows.filter (fun r => r.getD i Value.null == v)⟩
  | none => ⟨t.header, []⟩

/-- Emptiness of a DataFrame, df.empty: no rows or no columns. -/
def Table.isEmpty (t : Table) : Bool := t.rows.isEmpty || t.header.isEmpty

/-- Textual rendering of a rational cell for the cache file.  Integers
render exactly as pandas writes int64 cells; non-integers use a
fraction notation, which is enough here because claim C8 explicitly
brackets the stored precision of float cells. -/
def renderFrac (q : Frac) : String :=
  if q.den = 1 then toString q.num else toString q.num ++ "/" ++ toString q.den

/-- Textual rendering of one cell as DataFrame.to_csv writes it;
missing values are written as the empty field. -/
def renderValue : Value → String
  | .str s => s
  | .num q => renderFrac q
  | .null => ""

/-- Lexicographic comparison of character lists. -/
def leCharsL : List Char → List Char → Bool
  | [], _ => true
  | _ :: _, [] => false
  | a :: as, b :: bs => if a == b then leCharsL as bs else decide (a < b)

/-- String carried by a cell for sorting purposes; the source only
sorts columns of formatted date strings. -/
def cellStr : Value → String
  | .str s => s
  | .num q => renderFrac q
  | .null => ""

/-- Stable insertion of a row into rows already sorted ascending. -/
def insertRowBy (le : List Value → List Value → Bool) (r : List Value) :
    List (List Value) → List (List Value)
  | [] => [r]
  | x :: xs => if le x r then x :: insertRowBy le r xs else r :: x :: xs

/-- Stable insertion sort of rows. -/
def sortRowsBy (le : List Value → List Value → Bool) : List (List Value) → List (List Value)
  | [] => []
  | r :: rs => insertRowBy le r (sortRowsBy le rs)

/-- df.sort_values(name): rows ordered by the string value of the
named column.  The source sorts date columns whose cells are
yyyy-mm-dd strings, where lexicographic order is chronological. -/
def sortByCol (t : Table) (name : String) : Table :=
  match colIdx t name with
  | some i =>
    ⟨t.header,
      sortRowsBy (fun a b =>
        leCharsL (chars (cellStr (a.getD i Value.null))) (chars (cellStr (b.getD i Value.null))))
        t.rows⟩
  | none => t

/-- Python exception classes that the except-ladder of the source
distinguishes (data_fetcher.py lines 75-98), plus the concrete classes
raised inside adapters and formatters, which all land in the final
except-Exception arm. -/
inductive ErrCat where
  | connectionErr
  | timeoutErr
  | httpErr
  | jsonDecodeErr
  | csvParserErr
  | valueErr
  | nameErr
  | typeErr
  | indexErr
  | keyErr
  deriving DecidableEq, Repr

/-- An exception value: its class and its message str(e). -/
structure PyExc where
  cat : ErrCat
  msg : String
  deriving DecidableEq, Repr

/-- Text the matching except-arm puts before the source name; the last
five classes are all caught by the except-Exception arm. -/
def branchLabel : ErrCat → String
  | .connectionErr => "Network connection error with "
  | .timeoutErr => "Timeout error with "
  | .httpErr => "HTTP error with "
  | .jsonDecodeErr => "JSON parsing error with "
  | .csvParserErr => "CSV parsing error with "
  | _ => "Unexpected error with "

/-- One error_log entry, kept structured: the source identifier, the
category text of the except-arm that caught the exception, and the
message. -/
structure LogEntry where
  source : String
  category : String
  message : String
  deriving DecidableEq, Repr

/-- Builds the log entry the except-ladder appends for one failed
source. -/
def mkLogEntry (src : String) (e : PyExc) : LogEntry :=
  ⟨src, branchLabel e.cat, e.msg⟩

/-- The string the source actually appends to error_log (the
except-Exception arm additionally appends a traceback, which carries
no extra information for the claims and is omitted). -/
def renderLogEntry (le : LogEntry) : String :=
  le.category ++ le.source ++ ": " ++ le.message

/-- A cache file as written by DataFrame.to_csv(index=False), kept at
cell granularity: the header line and one line of rendered cells per
row. -/
structure CsvFile where
  colLine : List String
  cellLines : List (List String)
  deriving DecidableEq, Repr

/-- Serialization of a table to its cache file. -/
def Table.toCsv (t : Table) : CsvFile :=
  ⟨t.header, t.rows.map (fun r => r.map renderValue)⟩

/-- pandas read_csv renames duplicated header names by suffixing the
count of earlier occurrences of the same name. -/
def mangleDup : List String → List String → List String
  | _, [] => []
  | seen, h :: rest =>
    (if seen.count h = 0 then h else h ++ "." ++ toString (seen.count h)) ::
      mangleDup (h :: seen) rest

/-- Type inference of pandas read_csv on one cell: empty fields read
as missing, numerals as numbers, anything else as a string. -/
def parseCell (s : String) : Value :=
  if s = "" then Value.null
  else
    match parseIntL (chars s) with
    | some n => Value.num (Frac.ofInt n)
    | none =>
      match parseFloatL (chars s) with
      | some q => Value.num q
      | none => Value.str s

/-- pd.read_csv on a cache file: fails (EmptyDataError) when there are
no columns at all, otherwise reads the header back, renames duplicate
names, and infers cell types. -/
def readCsv (f : CsvFile) : Option Table :=
  if f.colLine.isEmpty then none
  else some ⟨mangleDup [] f.colLine, f.cellLines.map (fun r => r.map parseCell)⟩

/-- Option traversal of a list: all elements must convert. -/
def optList {α β : Type} (f : α → Option β) : List α → Option (List β)
  | [] => some []
  | a :: rest =>
    match f a, optList f rest with
    | some b, some bs => some (b :: bs)
    | _, _ => none

/-- Two-digit zero padding of strftime. -/
def pad2 (n : Nat) : String := if n < 10 then "0" ++ toString n else toString n

/-- strftime with the DATE_FORMAT of src/config.py, yyyy-mm-dd. -/
def fmtYMD (y m d : Nat) : String := toString y ++ "-" ++ pad2 m ++ "-" ++ pad2 d

/-- strptime with format %Y-%m-%d: three dash-separated numeric
fields with the month and day in calendar range. -/
def parseYMD (l : List Char) : Option (Nat × Nat × Nat) :=
  match splitOnC '-' l with
  | [a, b, c] =>
    match digitsToNat a, digitsToNat b, digitsToNat c with
    | some y, some m, some d =>
      if 1 ≤ m && m ≤ 12 && 1 ≤ d && d ≤ 31 then some (y, m, d) else none
    | _, _, _ => none
  | _ => none

/-- strptime with format %m/%d/%y: two-digit years 69 to 99 are the
1900s, 0 to 68 the 2000s. -/
def parseMDY (l : List Char) : Option (Nat × Nat × Nat) :=
  match splitOnC '/' l with
  | [a, b, c] =>
    match digitsToNat a, digitsToNat b, digitsToNat c with
    | some m, some d, some y =>
      if 1 ≤ m && m ≤ 12 && 1 ≤ d && d ≤ 31 && c.length ≤ 2 then
        some (if y ≤ 68 then 2000 + y else 1900 + y, m, d)
      else none
    | _, _, _ => none
  | _ => none

/-- pd.to_datetime on one string, restricted to the two concrete date
formats the data on these code paths carries; anything else fails as
to_datetime raises on unparseable input. -/
def parseDateAny (s : String) : Option (Nat × Nat × Nat) :=
  match parseYMD (chars s) with
  | some ymd => some ymd
  | none => parseMDY (chars s)

/-- pd.to_datetime followed by dt.strftime(DATE_FORMAT) on one cell;
the date columns on these code paths are string typed. -/
def reformatDateCell : Value → Option Value
  | .str s => (parseDateAny s).map (fun x => Value.str (fmtYMD x.1 x.2.1 x.2.2))
  | _ => none

/-- Inner pass of the cumulative-to-daily derivation of the OWID
branch of _format_vaccination_data: successive differences, truncated
to int and then clamped at zero. -/
def owidDiffs : Frac → List Frac → List Int
  | _, [] => []
  | prev, x :: rest => max 0 ((x - prev).trunc) :: owidDiffs x rest

/-- Embeds data[col].diff().fillna(0).astype(int) followed by clamping
negative entries to zero (data_fetcher.py lines 844-850) on an
all-numeric column: the first difference is NaN, so fillna makes the
first daily value 0. -/
def owidDeriveDaily : List Frac → List Int
  | [] => []
  | x :: rest => 0 :: owidDiffs x rest

/-- Cell-level version of the same derivation: missing cells make the
adjacent differences NaN, which fillna(0) turns into 0; a string cell
makes the whole column arithmetic raise. -/
def owidDiffsCells : Option Frac → List Value → Option (List Int)
  | _, [] => some []
  | prev, Value.num x :: rest =>
    let d : Int :=
      match prev with
      | some p => max 0 ((x - p).trunc)
      | none => 0
    (owidDiffsCells (some x) rest).map (fun l => d :: l)
  | _, Value.null :: rest => (owidDiffsCells none rest).map (fun l => 0 :: l)
  | _, Value.str _ :: _ => none

/-- Cell-level cumulative-to-daily derivation of the OWID branch. -/
def owidDeriveDailyCells : List Value → Option (List Int)
  | [] => some []
  | Value.num x :: rest => (owidDiffsCells (some x) rest).map (fun l => 0 :: l)
  | Value.null :: rest => (owidDiffsCells none rest).map (fun l => 0 :: l)
  | Value.str _ :: _ => none

/-- Inner pass of the daily-count computation of _process_jh_data
(data_fetcher.py lines 424-434) on an all-parseable date range:
difference from the previous day, clamped at zero. -/
def jhDiffs : Int → List Int → List Int
  | _, [] => []
  | prev, x :: rest => max 0 (x - prev) :: jhDiffs x rest

/-- Daily counts derived from cumulative counts as _process_jh_data
does it: the first day keeps its cumulative value (clamped at zero
like every day), later days take the clamped difference. -/
def jhDeriveDaily : List Int → List Int
  | [] => []
  | x :: rest => max 0 x :: jhDiffs x rest

/-- Elementwise addition of two numeric cells; anything else is NaN. -/
def addNumCells : Value → Value → Value
  | Value.num a, Value.num b => Value.num (a + b)
  | _, _ => Value.null

/-- Date column names of the wide Johns Hopkins layout: every column
whose name contains a slash or a dash (data_fetcher.py line 394). -/
def jhDateColumns (t : Table) : List String :=
  t.header.filter (fun c => strHas c "/" || strHas c "-")

/-- Date parsing of _process_jh_data (lines 411-418): names containing
a slash parse as %m/%d/%y, the rest as %Y-%m-%d, and the parsed date
is re-rendered as yyyy-mm-dd. -/
def parseJhDate (s : String) : Option String :=
  if strHas s "/" then (parseMDY (chars s)).map (fun x => fmtYMD x.1 x.2.1 x.2.2)
  else (parseYMD (chars s)).map (fun x => fmtYMD x.1 x.2.1 x.2.2)

/-- Python subtraction of two wide-row cells as the positional
difference of line 426 computes it: numbers subtract, NaN propagates,
a string operand raises TypeError (which the except-ValueError arm of
the loop does not catch). -/
def subCellsJh : Value → Value → Except PyExc Value
  | Value.num a, Value.num b => Except.ok (Value.num (a - b))
  | Value.str _, _ => Except.error ⟨ErrCat.typeErr, "unsupported operand type for sub"⟩
  | _, Value.str _ => Except.error ⟨ErrCat.typeErr, "unsupported operand type for sub"⟩
  | _, _ => Except.ok Value.null

/-- Python max(0, day) of lines 433-434 on one daily cell: numbers
clamp at zero; a NaN compares False against 0, so max keeps the 0; a
string operand raises TypeError. -/
def clampCellJh : Value → Except PyExc Value
  | Value.num q => Except.ok (Value.num (if q.blt 0 then 0 else q))
  | Value.null => Except.ok (Value.num 0)
  | Value.str _ => Except.error ⟨ErrCat.typeErr, "comparison not supported between str and int"⟩

/-- One parsed position of the per-date loop of _process_jh_data
(lines 420-434) on raw wide-row cells, in Python evaluation order:
the two positional differences first (at the first position the
cumulative cells themselves), then the two max(0, day) clamps.  Any
string operand raises TypeError, which the except-ValueError arm of
the loop does not catch; on the canonical Johns Hopkins layout the
Country/Region column contains a slash, so it is a date column and
its Korea, South cell is hit by the difference at the first parseable
date that follows it. -/
def jhStep (prev : Option (Value × Value)) (cc cd : Value) :
    Except PyExc (Value × Value) :=
  match prev with
  | none =>
    match clampCellJh cc, clampCellJh cd with
    | Except.ok c1, Except.ok d1 => Except.ok (c1, d1)
    | Except.error e, _ => Except.error e
    | _, Except.error e => Except.error e
  | some p =>
    match subCellsJh cc p.1, subCellsJh cd p.2 with
    | Except.ok c0, Except.ok d0 =>
      match clampCellJh c0, clampCellJh d0 with
      | Except.ok c1, Except.ok d1 => Except.ok (c1, d1)
      | Except.error e, _ => Except.error e
      | _, Except.error e => Except.error e
    | Except.error e, _ => Except.error e
    | _, Except.error e => Except.error e

/-- The loop itself: parse failures are skipped (their cells still
feed the next positional difference), and any TypeError from a step
propagates out of the function. -/
def jhLoopCells : Option (Value × Value) → List (String × Value × Value) →
    Except PyExc (List (String × Value × Value))
  | _, [] => Except.ok []
  | prev, (d, cc, cd) :: rest =>
    match parseJhDate d with
    | none => jhLoopCells (some (cc, cd)) rest
    | some ds =>
      match jhStep prev cc cd with
      | Except.error e => Except.error e
      | Except.ok cd1 =>
        match jhLoopCells (some (cc, cd)) rest with
        | Except.error e => Except.error e
        | Except.ok l => Except.ok ((ds, cd1.1, cd1.2) :: l)

/-- Module-level names bound by the import statements of
data_fetcher.py (lines 6-28 plus the module logger): numpy is not
imported, so the name np is not among them. -/
def dataFetcherImportedNames : List String :=
  ["os", "requests", "pd", "datetime", "timedelta", "time", "json",
   "BeautifulSoup", "io", "traceback",
   "KDCA_VACCINATION_URL", "KDCA_DAILY_STATS_URL", "OWID_VACCINATION_URL",
   "JH_CASES_URL", "JH_DEATHS_URL", "WHO_API_URL", "KCDC_DASHBOARD_URL",
   "OSS_VACCINATION_URL", "MOHW_API_URL", "REGIONAL_DATA_URL",
   "setup_logger", "log_function_call", "log_error", "logger"]

/-- Is the name np bound when _process_jh_data constructs its result? -/
def npIsBound : Bool := dataFetcherImportedNames.contains "np"

/-- Running cumulative sums over cells, np.cumsum; dead code in the
source, because evaluating the unbound name np raises first. -/
def cumSumCells : Value → List Value → List Value
  | _, [] => []
  | acc, v :: rest =>
    let s := addNumCells acc v
    s :: cumSumCells s rest

/-- The country tag of the South Korea rows in the Johns Hopkins
tables. -/
def koreaSouth : Value := Value.str "Korea, South"

/-- Embedding of _process_jh_data (data_fetcher.py lines 387-456).
The wide-row cumulative cells are carried as raw cells, so the
TypeError of the positional subtraction at string cells aborts the
loop exactly as in Python.  When the loop completes, the result
construction at lines 448-454 references np.cumsum, but numpy is
never imported by the module, so that step raises NameError; the
embedding keeps the construction behind the npIsBound test so the
translation stays executable either way. -/
def processJhData (casesDf deathsDf : Table) : Except PyExc Table :=
  let confirmedSk := filterRowsEq casesDf "Country/Region" koreaSouth
  let deathsSk := filterRowsEq deathsDf "Country/Region" koreaSouth
  let dateCols := jhDateColumns confirmedSk
  if dateCols.isEmpty then
    Except.error ⟨ErrCat.valueErr, "No date columns found in JH data"⟩
  else
    match confirmedSk.rows.head?, deathsSk.rows.head? with
    | some rc, some rd =>
      let cvals := dateCols.map (fun c => rc.getD ((colIdx confirmedSk c).getD 0) Value.null)
      let dvals := dateCols.map (fun c => rd.getD ((colIdx deathsSk c).getD 0) Value.null)
      match jhLoopCells none (dateCols.zip (cvals.zip dvals)) with
      | Except.error e => Except.error e
      | Except.ok out =>
        if out.isEmpty then
          Except.error ⟨ErrCat.valueErr, "No valid dates could be parsed from JH data"⟩
        else if npIsBound then
          let dailyC := out.map (fun x => x.2.1)
          let dailyD := out.map (fun x => x.2.2)
          Except.ok
            ⟨["date", "daily_cases", "daily_deaths", "cumulative_cases", "cumulative_deaths"],
              (out.zip ((cumSumCells (Value.num 0) dailyC).zip
                  (cumSumCells (Value.num 0) dailyD))).map (fun x =>
                [Value.str x.1.1, x.1.2.1, x.1.2.2, x.2.1, x.2.2])⟩
        else
          Except.error ⟨ErrCat.nameErr, "name np is not defined"⟩
    | _, _ => Except.error ⟨ErrCat.indexErr, "index 0 is out of bounds"⟩

/-- South Korea population constant of src/config.py line 37. -/
def POPULATION : Frac := Frac.ofInt 51000000

/-- The 17 canonical regions of src/config.py. -/
def REGIONS : List String :=
  ["Seoul", "Busan", "Daegu", "Incheon", "Gwangju", "Daejeon", "Ulsan", "Sejong",
   "Gyeonggi", "Gangwon", "Chungbuk", "Chungnam", "Jeonbuk", "Jeonnam", "Gyeongbuk",
   "Gyeongnam", "Jeju"]

/-- Localized-name lookup of _process_scraped_regional_data
(data_fetcher.py lines 666-673). -/
def regionMapping : List (String × String) :=
  [("서울", "Seoul"), ("부산", "Busan"), ("대구", "Daegu"), ("인천", "Incheon"),
   ("광주", "Gwangju"), ("대전", "Daejeon"), ("울산", "Ulsan"), ("세종", "Sejong"),
   ("경기", "Gyeonggi"), ("강원", "Gangwon"), ("충북", "Chungbuk"), ("충남", "Chungnam"),
   ("전북", "Jeonbuk"), ("전남", "Jeonnam"), ("경북", "Gyeongbuk"), ("경남", "Gyeongnam"),
   ("제주", "Jeju")]

/-- Population share table of _process_scraped_regional_data
(data_fetcher.py lines 704-710), as exact rationals.  The source
multiplies the int POPULATION by a float share and truncates with
int(); the embedding computes the product exactly, which agrees with
the double-precision product for the share at issue in the claims. -/
def populationDistribution : List (String × Frac) :=
  [("Seoul", normFrac 20 100), ("Busan", normFrac 7 100), ("Daegu", normFrac 5 100),
   ("Incheon", normFrac 6 100), ("Gwangju", normFrac 3 100), ("Daejeon", normFrac 3 100),
   ("Ulsan", normFrac 2 100), ("Sejong", normFrac 1 100), ("Gyeonggi", normFrac 25 100),
   ("Gangwon", normFrac 3 100), ("Chungbuk", normFrac 3 100), ("Chungnam", normFrac 4 100),
   ("Jeonbuk", normFrac 3 100), ("Jeonnam", normFrac 3 100), ("Gyeongbuk", normFrac 5 100),
   ("Gyeongnam", normFrac 6 100), ("Jeju", normFrac 1 100)]

/-- df[first_col].map(region_mapping): unmapped names become NaN. -/
def mapRegionCell : Value → Value
  | .str s =>
    match regionMapping.lookup s with
    | some r => Value.str r
    | none => Value.null
  | _ => Value.null

/-- Numeric conversion df[col].str.replace(",", "").astype(float) on
one scraped cell: non-string cells and non-numeric text raise. -/
def scrapedToNum : Value → Option Value
  | .str s => (parseFloatL (chars (stripCommas s))).map Value.num
  | _ => none

/-- The numeric-conversion loop of _process_scraped_regional_data
(lines 679-682): every column except region and the first column is
converted; a conversion failure raises out of the function. -/
def convertCols (firstCol : String) : Table → List String → Except PyExc Table
  | t, [] => Except.ok t
  | t, c :: rest =>
    if c == "region" || c == firstCol then convertCols firstCol t rest
    else
      match optList scrapedToNum ((getCol t c).getD []) with
      | some vals => convertCols firstCol (setCol t c vals) rest
      | none => Except.error ⟨ErrCat.valueErr, "could not convert string to float"⟩

/-- The keyword-based standardization loop of
_process_scraped_regional_data (lines 688-697). -/
def keywordAssign (src : Table) : Table → List String → Table
  | acc, [] => acc
  | acc, c :: rest =>
    let vals := (getCol src c).getD []
    let acc2 :=
      if strHas c "1차" || strHas c "1dose" || strHas (strLower c) "first" then
        setCol acc "first_dose" vals
      else if strHas c "2차" || strHas c "2dose" || strHas (strLower c) "second" then
        setCol acc "second_dose" vals
      else if strHas c "부스터" || strHas (strLower c) "booster" then
        setCol acc "booster" vals
      else if strHas c "인구" || strHas (strLower c) "population" then
        setCol acc "population" vals
      else acc
    keywordAssign src acc2 rest

/-- result_df[region].map of the population fill (lines 712-714):
int(POPULATION * share) per region. -/
def popLookup : Value → Value
  | .str s =>
    match populationDistribution.lookup s with
    | some d => Value.num (Frac.ofInt ((POPULATION * d).trunc))
    | none => Value.null
  | _ => Value.null

/-- Elementwise count / denominator * 100 rounded to two decimals
(lines 717-719 and line 1021); a missing or zero denominator has no
finite float value and is embedded as a missing cell. -/
def ratioPctCell : Value → Value → Value
  | Value.num a, Value.num b =>
    if b.num = 0 then Value.null else Value.num (round2 (a / b * 100))
  | _, _ => Value.null

/-- The percentage loop of _process_scraped_regional_data (lines
716-719) for one dose column. -/
def addPct (t : Table) (c : String) : Table :=
  if hasCol t c then
    let xs := (getCol t c).getD []
    let ps := (getCol t "population").getD []
    setCol t (c ++ "_percentage") ((xs.zip ps).map (fun x => ratioPctCell x.1 x.2))
  else t

/-- Embedding of _process_scraped_regional_data (data_fetcher.py lines
649-721). -/
def processScrapedRegionalData (df : Table) : Except PyExc Table :=
  match df.header.head? with
  | none => Except.error ⟨ErrCat.indexErr, "index 0 is out of bounds"⟩
  | some firstCol =>
    let firstVals := (getCol df firstCol).getD []
    let hits := firstVals.any fun v =>
      match v with
      | Value.str s => REGIONS.contains s
      | _ => false
    let df1 :=
      if hits then setCol df "region" firstVals
      else setCol df "region" (firstVals.map mapRegionCell)
    match convertCols firstCol df1 df1.header with
    | Except.error e => Except.error e
    | Except.ok df2 =>
      let regionVals := (getCol df2 "region").getD []
      let res0 : Table := ⟨["region"], regionVals.map (fun v => [v])⟩
      let res1 := keywordAssign df2 res0 df2.header
      let res2 :=
        if hasCol res1 "population" then res1
        else setCol res1 "population" (regionVals.map popLookup)
      Except.ok (addPct (addPct (addPct res2 "first_dose") "second_dose") "booster")

/-- Required canonical vaccination columns (data_fetcher.py lines
936-940). -/
def vaccinationRequiredColumns : List String :=
  ["date", "daily_first_dose", "daily_second_dose", "daily_booster",
   "cumulative_first_dose", "cumulative_second_dose", "cumulative_booster",
   "first_dose_percentage", "second_dose_percentage", "booster_percentage"]

/-- Vaccine share table of the OWID branch (lines 872-878). -/
def vaccineDistribution : List (String × Frac) :=
  [("Pfizer", normFrac 45 100), ("Moderna", normFrac 30 100),
   ("AstraZeneca", normFrac 15 100), ("Janssen", normFrac 5 100),
   ("Novavax", normFrac 5 100)]

/-- Column renaming of the OWID branch (lines 853-861). -/
def owidColumnMapping : List (String × String) :=
  [("people_vaccinated", "cumulative_first_dose"),
   ("people_fully_vaccinated", "cumulative_second_dose"),
   ("total_boosters", "cumulative_booster"),
   ("daily_people_vaccinated", "daily_first_dose"),
   ("daily_people_fully_vaccinated", "daily_second_dose"),
   ("daily_total_boosters", "daily_booster")]

/-- Cumulative count cell divided by the population constant, times
100, rounded (lines 864-868 and 912-918); NaN cells stay NaN. -/
def pctOfPop : Value → Value
  | Value.num q => Value.num (round2 (q / POPULATION * 100))
  | _ => Value.null

/-- The cumulative-to-daily loop of the OWID branch (lines 845-850)
over the four cumulative column names. -/
def owidAddDailies : Table → List String → Except PyExc Table
  | t, [] => Except.ok t
  | t, c :: rest =>
    match getCol t c with
    | none => owidAddDailies t rest
    | some vals =>
      match owidDeriveDailyCells vals with
      | none => Except.error ⟨ErrCat.typeErr, "unsupported operand type in diff"⟩
      | some ds =>
        owidAddDailies (setCol t ("daily_" ++ c) (ds.map (fun i => Value.num (Frac.ofInt i)))) rest

/-- One vaccine-type daily estimate: (daily_total * share).astype(int)
(line 887). -/
def scaleTrunc (p : Frac) : Value → Value
  | Value.num q => Value.num (Frac.ofInt ((q * p).trunc))
  | _ => Value.null

/-- The vaccine-type distribution loop of the OWID branch (lines
886-888). -/
def addVaccineTypeCols : Table → List (String × Frac) → List Value → Table
  | t, [], _ => t
  | t, (name, p) :: rest, total =>
    let t1 := setCol t (name ++ "_daily") (total.map (scaleTrunc p))
    let t2 := setColScalar t1 (name ++ "_percentage") (Value.num (p * 100))
    addVaccineTypeCols t2 rest total

/-- daily_total and the per-type columns of the OWID branch (lines
881-888): daily_first_dose plus daily_second_dose plus the
daily_booster column when it exists, the scalar 0 otherwise. -/
def owidAddVaccineTypes (t : Table) : Except PyExc Table :=
  match getCol t "daily_first_dose", getCol t "daily_second_dose" with
  | some d1, some d2 =>
    let db :=
      match getCol t "daily_booster" with
      | some l => l
      | none => d1.map (fun _ => Value.num 0)
    let total := ((d1.zip d2).zip db).map (fun x => addNumCells (addNumCells x.1.1 x.1.2) x.2)
    let t1 := setCol t "daily_total" total
    Except.ok (addVaccineTypeCols t1 vaccineDistribution total)
  | _, _ => Except.error ⟨ErrCat.keyErr, "daily_first_dose"⟩

/-- The OWID branch of _format_vaccination_data (lines 837-888). -/
def formatVaccinationOWID (t : Table) : Except PyExc Table :=
  match getCol t "date" with
  | none => Except.error ⟨ErrCat.keyErr, "date"⟩
  | some dvals =>
    match optList reformatDateCell dvals with
    | none => Except.error ⟨ErrCat.valueErr, "time data does not match format"⟩
    | some dvals2 =>
      let t1 := sortByCol (setCol t "date" dvals2) "date"
      match owidAddDailies t1
          ["total_vaccinations", "people_vaccinated", "people_fully_vaccinated",
           "total_boosters"] with
      | Except.error e => Except.error e
      | Except.ok t2 =>
        let t3 := renameCols t2 owidColumnMapping
        match getCol t3 "cumulative_first_dose", getCol t3 "cumulative_second_dose" with
        | some c1, some c2 =>
          let t4 := setCol t3 "first_dose_percentage" (c1.map pctOfPop)
          let t5 := setCol t4 "second_dose_percentage" (c2.map pctOfPop)
          let t6 :=
            match getCol t5 "cumulative_booster" with
            | some cb => setCol t5 "booster_percentage" (cb.map pctOfPop)
            | none => t5
          owidAddVaccineTypes t6
        | _, _ => Except.error ⟨ErrCat.keyErr, "cumulative_first_dose"⟩

/-- Column renaming of the KDCA branch (lines 897-905). -/
def kdcaVaccMapping : List (String × String) :=
  [("first_dose_total", "cumulative_first_dose"),
   ("second_dose_total", "cumulative_second_dose"),
   ("booster_total", "cumulative_booster"),
   ("first_dose_daily", "daily_first_dose"),
   ("second_dose_daily", "daily_second_dose"),
   ("booster_daily", "daily_booster")]

/-- The add-percentages-if-missing loop of the KDCA branch (lines
911-918). -/
def kdcaAddPcts : Table → List (String × String) → Table
  | t, [] => t
  | t, (src, target) :: rest =>
    let t2 :=
      if hasCol t src && !hasCol t target then
        setCol t target (((getCol t src).getD []).map pctOfPop)
      else t
    kdcaAddPcts t2 rest

/-- The KDCA branch of _format_vaccination_data (lines 890-918). -/
def formatVaccinationKDCA (t : Table) : Except PyExc Table :=
  let step1 : Except PyExc Table :=
    match getCol t "date" with
    | none => Except.ok t
    | some dvals =>
      match optList reformatDateCell dvals with
      | none => Except.error ⟨ErrCat.valueErr, "time data does not match format"⟩
      | some dvals2 => Except.ok (setCol t "date" dvals2)
  match step1 with
  | Except.error e => Except.error e
  | Except.ok t1 =>
    Except.ok (kdcaAddPcts (renameCols t1 kdcaVaccMapping)
      [("cumulative_first_dose", "first_dose_percentage"),
       ("cumulative_second_dose", "second_dose_percentage"),
       ("cumulative_booster", "booster_percentage")])

/-- The ensure-required-columns loop of _format_vaccination_data
(lines 942-948): a missing date column is filled with the processing
date, every other missing column with the scalar 0. -/
def fillRequired (today : String) : Table → List String → Table
  | t, [] => t
  | t, c :: rest =>
    let t2 :=
      if hasCol t c then t
      else if c == "date" then setColScalar t c (Value.str today)
      else setColScalar t c (Value.num 0)
    fillRequired today t2 rest

/-- Embedding of _format_vaccination_data (data_fetcher.py lines
819-949); today is the strftime of datetime.now() used for a missing
date column.  The MOHW, WHO and OSS Community branches of the source
are pass statements. -/
def formatVaccination (today : String) (sourceName : String) (t : Table) :
    Except PyExc Table :=
  let base : Except PyExc Table :=
    if sourceName == "OWID" then formatVaccinationOWID t
    else if sourceName == "KDCA" then formatVaccinationKDCA t
    else Except.ok t
  match base with
  | Except.error e => Except.error e
  | Except.ok t2 => Except.ok (fillRequired today t2 vaccinationRequiredColumns)

/-- Column renaming of the WHO branch of _format_daily_stats (lines
1003-1009). -/
def whoDailyMapping : List (String × String) :=
  [("Date_reported", "date"), ("New_cases", "daily_cases"),
   ("New_deaths", "daily_deaths"), ("Cumulative_cases", "cumulative_cases"),
   ("Cumulative_deaths", "cumulative_deaths")]

/-- Column renaming of the KDCA branch of _format_daily_stats (lines
980-985). -/
def kdcaDailyMapping : List (String × String) :=
  [("confirmed_daily", "daily_cases"), ("death_daily", "daily_deaths"),
   ("testing_daily", "daily_tests")]

/-- all(formatted_data[Country] == Republic of Korea) of line 999. -/
def allCountryKorea (t : Table) : Bool :=
  ((getCol t "Country").getD []).all (fun v => v == Value.str "Republic of Korea")

/-- The date-formatting step of the WHO branch (lines 1016-1017):
reading iloc[0] of an empty column raises; a string first cell skips
the reformat. -/
def whoDateStep (t : Table) : Except PyExc Table :=
  if hasCol t "date" then
    match ((getCol t "date").getD []).head? with
    | none => Except.error ⟨ErrCat.indexErr, "single positional indexer is out-of-bounds"⟩
    | some (Value.str _) => Except.ok t
    | some _ =>
      match optList reformatDateCell ((getCol t "date").getD []) with
      | none => Except.error ⟨ErrCat.valueErr, "time data does not match format"⟩
      | some d2 => Except.ok (setCol t "date" d2)
  else Except.ok t

/-- Embedding of _format_daily_stats (data_fetcher.py lines 951-1027).
Data that already carries daily_cases and daily_deaths (the Johns
Hopkins shape) is returned as is; the MOHW branch is a pass. -/
def formatDailyStats (sourceName : String) (t : Table) : Except PyExc Table :=
  if hasCol t "daily_cases" && hasCol t "daily_deaths" then Except.ok t
  else
    let base : Except PyExc Table :=
      if sourceName == "KDCA" then
        match getCol t "date" with
        | none => Except.ok (renameCols t kdcaDailyMapping)
        | some dvals =>
          match optList reformatDateCell dvals with
          | none => Except.error ⟨ErrCat.valueErr, "time data does not match format"⟩
          | some d2 => Except.ok (renameCols (setCol t "date" d2) kdcaDailyMapping)
      else if sourceName == "WHO" then
        let tf :=
          if hasCol t "Country" && !allCountryKorea t then
            filterRowsEq t "Country" (Value.str "Republic of Korea")
          else t
        whoDateStep (renameCols tf whoDailyMapping)
      else Except.ok t
    match base with
    | Except.error e => Except.error e
    | Except.ok t1 =>
      let t2 :=
        if hasCol t1 "daily_cases" && hasCol t1 "daily_tests" then
          setCol t1 "positivity_rate"
            ((((getCol t1 "daily_cases").getD []).zip ((getCol t1 "daily_tests").getD [])).map
              (fun x => ratioPctCell x.1 x.2))
        else t1
      Except.ok (if hasCol t2 "date" then sortByCol t2 "date" else t2)

/-- Required columns checked by _fetch_owid_vaccination (line 182). -/
def owidRequiredColumns : List String :=
  ["date", "total_vaccinations", "people_vaccinated", "people_fully_vaccinated"]

/-- Structural validation of _fetch_owid_vaccination (lines 165-187)
after the transport and content-type stages: a non-empty parsed table
carrying the four required columns is returned unchanged. -/
def owidValidate (t : Table) : Except PyExc Table :=
  if t.isEmpty then Except.error ⟨ErrCat.valueErr, "OWID returned an empty dataset"⟩
  else if (owidRequiredColumns.filter (fun c => !hasCol t c)).isEmpty then Except.ok t
  else Except.error ⟨ErrCat.valueErr, "OWID data missing required columns"⟩

/-- What one planned fetch_func() call would do if invoked: raise an
exception, or return a parsed table.  The adapters of the source
either raise or return a validated table; the resolver loop
additionally guards against None and empty returns. -/
inductive FetchOutcome where
  | raises (e : PyExc)
  | returns (t : Table)
  deriving DecidableEq, Repr

/-- Is the planned outcome an exception? -/
def FetchOutcome.isRaises : FetchOutcome → Bool
  | .raises _ => true
  | .returns _ => false

/-- What one pass of the fallback loop produces: the formatted table
of the first successful source if any, the error_log entries
accumulated over failed sources, and the sources invoked in order. -/
structure ChainResult where
  success : Option Table
  log : List LogEntry
  invoked : List String
  deriving DecidableEq, Repr

/-- The fallback loop over the source chain (data_fetcher.py lines
65-98, 250-281, 507-540): a source that raises is logged by the
matching except-arm and skipped; a source returning an empty table is
skipped without a log entry; a non-empty return is formatted, and a
formatting exception is also caught, logged and skipped.  The first
source whose fetch and format both succeed stops the loop. -/
def runChain (format : String → Table → Except PyExc Table) :
    List (String × FetchOutcome) → ChainResult
  | [] => ⟨none, [], []⟩
  | (name, FetchOutcome.raises e) :: rest =>
    let r := runChain format rest
    ⟨r.success, mkLogEntry name e :: r.log, name :: r.invoked⟩
  | (name, FetchOutcome.returns t) :: rest =>
    if t.isEmpty then
      let r := runChain format rest
      ⟨r.success, r.log, name :: r.invoked⟩
    else
      match format name t with
      | Except.ok ft => ⟨some ft, [], [name]⟩
      | Except.error e =>
        let r := runChain format rest
        ⟨r.success, mkLogEntry name e :: r.log, name :: r.invoked⟩

/-- A cache file on disk together with its age in days (wall clock
minus modification time). -/
structure CacheFile where
  content : CsvFile
  ageDays : Frac
  deriving DecidableEq, Repr

/-- Errors that can escape the acquire operation: the final
RuntimeError carrying the aggregated error_log, and a pandas read
error on a degenerate cache file (the code reads the cache without a
guard; its own writes are never degenerate). -/
inductive AcqError where
  | allSourcesFailed (log : List LogEntry)
  | cacheReadError
  deriving DecidableEq, Repr

deriving instance DecidableEq for Except

/-- Observable outcome of one acquire call: the returned table or the
escaping error, the cache file after the call, and the sources
invoked. -/
structure AcquireOut where
  result : Except AcqError Table
  cacheAfter : Option CacheFile
  invoked : List String
  deriving DecidableEq, Repr

/-- Steps 2 to 4 of the facade (lines 65-112 and the analogous daily
and regional blocks): run the fallback loop; on success write the
result to the cache and return it; otherwise return the cache file of
any age when one exists, and raise the aggregated RuntimeError when
none does. -/
def acquireLoop (format : String → Table → Except PyExc Table)
    (env : List (String × FetchOutcome)) (cache : Option CacheFile) : AcquireOut :=
  let r := runChain format env
  match r.success with
  | some ft => ⟨Except.ok ft, some ⟨Table.toCsv ft, 0⟩, r.invoked⟩
  | none =>
    match cache with
    | some cf =>
      match readCsv cf.content with
      | some t => ⟨Except.ok t, cache, r.invoked⟩
      | none => ⟨Except.error AcqError.cacheReadError, cache, r.invoked⟩
    | none => ⟨Except.error (AcqError.allSourcesFailed r.log), cache, r.invoked⟩

/-- The acquire operation of the facade for one dataset kind
(fetch_vaccination_data, fetch_daily_stats, fetch_regional_data):
with use_cache set and a cache file strictly younger than cache_days,
the cache is returned with no source invoked; otherwise the fallback
loop of acquireLoop runs. -/
def acquire (format : String → Table → Except PyExc Table)
    (env : List (String × FetchOutcome)) (cache : Option CacheFile)
    (useCache : Bool) (cacheDays : Frac) : AcquireOut :=
  match cache with
  | some cf =>
    if useCache && Frac.blt cf.ageDays cacheDays then
      match readCsv cf.content with
      | some t => ⟨Except.ok t, cache, []⟩
      | none => ⟨Except.error AcqError.cacheReadError, cache, []⟩
    else acquireLoop format env cache
  | none => acquireLoop format env cache

/-- Source chain of fetch_vaccination_data (lines 57-63). -/
def vaccinationSources : List String := ["KDCA", "MOHW", "OWID", "WHO", "OSS Community"]

/-- Source chain of fetch_daily_stats (lines 243-248). -/
def dailyStatsSources : List String := ["KDCA", "MOHW", "JH", "WHO"]

/-- Source chain of fetch_regional_data (lines 501-505). -/
def regionalSources : List String := ["KDCA Regional", "MOHW Regional", "Web Scraping"]

/-- fetch_regional_data saves and returns the resolved raw table with
no formatting step (lines 507-516). -/
def regionalFormat : String → Table → Except PyExc Table := fun _ t => Except.ok t

/-- fetch_vaccination_data as an acquire instance. -/
def acquireVaccination (today : String) (outcomes : List FetchOutcome)
    (cache : Option CacheFile) (useCache : Bool) (cacheDays : Frac) : AcquireOut :=
  acquire (formatVaccination today) (vaccinationSources.zip outcomes) cache useCache cacheDays

/-- fetch_daily_stats as an acquire instance. -/
def acquireDailyStats (outcomes : List FetchOutcome)
    (cache : Option CacheFile) (useCache : Bool) (cacheDays : Frac) : AcquireOut :=
  acquire (fun n t => formatDailyStats n t) (dailyStatsSources.zip outcomes) cache useCache cacheDays

/-- fetch_regional_data as an acquire instance. -/
def acquireRegional (outcomes : List FetchOutcome)
    (cache : Option CacheFile) (useCache : Bool) (cacheDays : Frac) : AcquireOut :=
  acquire regionalFormat (regionalSources.zip outcomes) cache useCache cacheDays

/-! Helper lemmas shared by the claim theorems. -/

/-- Every except-arm prints a nonempty category text. -/
theorem branchLabel_length_pos (c : ErrCat) : 0 < (branchLabel c).length := by
  cases c <;> decide

/-- A log entry with a nonempty category renders to a nonempty
string. -/
theorem renderLogEntry_length_pos (le : LogEntry) (h : 0 < le.category.length) :
    0 < (renderLogEntry le).length := by
  simp only [renderLogEntry, String.length_append]
  omega

/-- A chain in which every planned outcome raises finds no success and
logs one nonempty-category entry per source. -/
theorem runChain_allRaises (fmt : String → Table → Except PyExc Table) :
    ∀ env : List (String × FetchOutcome),
      (∀ p ∈ env, p.2.isRaises = true) →
      (runChain fmt env).success = none ∧
      (runChain fmt env).log.length = env.length ∧
      (∀ le ∈ (runChain fmt env).log, 0 < le.category.length) := by
  intro env
  induction env with
  | nil => intro _; exact ⟨rfl, rfl, by intro le h; cases h⟩
  | cons p rest ih =>
    intro h
    obtain ⟨name, o⟩ := p
    have ho : o.isRaises = true := h (name, o) (by simp)
    cases o with
    | returns t => simp [FetchOutcome.isRaises] at ho
    | raises e =>
      have hr := ih (fun q hq => h q (by simp [hq]))
      refine ⟨by simpa [runChain] using hr.1, by simpa [runChain] using hr.2.1, ?_⟩
      intro le hle
      simp only [runChain, List.mem_cons] at hle
      rcases hle with hle | hle
      · subst hle
        simpa [mkLogEntry] using branchLabel_length_pos e.cat
      · exact hr.2.2 le hle

/-- An acquire call whose cache file is present and readable never
ends in an error, whatever the sources do. -/
theorem acquire_ok_of_readable (fmt : String → Table → Except PyExc Table)
    (env : List (String × FetchOutcome)) (cf : CacheFile) (u : Bool) (d : Frac)
    (t : Table) (hread : readCsv cf.content = some t) :
    ∃ rt, (acquire fmt env (some cf) u d).result = Except.ok rt := by
  unfold acquire
  by_cases hb : (u && Frac.blt cf.ageDays d) = true
  · exact ⟨t, by simp [hb, hread]⟩
  · simp only [hb, if_false, Bool.false_eq_true]
    unfold acquireLoop
    cases hs : (runChain fmt env).success with
    | some ft => exact ⟨ft, by simp [hs]⟩
    | none => exact ⟨t, by simp [hs, hread]⟩

/-! Claim C1. -/

/-- C1: for every dataset kind (Vaccination, DailyStats, Regional) and
for every value of use_cache, if every source adapter in the chain
fails (raises) but a cache file for that kind exists, regardless of
its age — even beyond cache_days — and reads back as a table, the
acquire operation returns the cached dataset rather than raising. -/
theorem thm_C1_stale_cache_fallback
    (today : String) (outcomes : List FetchOutcome) (cf : CacheFile) (t : Table)
    (useCache : Bool) (cacheDays : Frac)
    (hall : ∀ o ∈ outcomes, o.isRaises = true)
    (hread : readCsv cf.content = some t) :
    (acquireVaccination today outcomes (some cf) useCache cacheDays).result = Except.ok t ∧
    (acquireDailyStats outcomes (some cf) useCache cacheDays).result = Except.ok t ∧
    (acquireRegional outcomes (some cf) useCache cacheDays).result = Except.ok t := by
  have key : ∀ (fmt : String → Table → Except PyExc Table) (names : List String),
      (acquire fmt (names.zip outcomes) (some cf) useCache cacheDays).result = Except.ok t := by
    intro fmt names
    have hz : ∀ p ∈ names.zip outcomes, p.2.isRaises = true := by
      intro p hp
      exact hall p.2 (List.of_mem_zip (by simpa using hp)).2
    have hs := (runChain_allRaises fmt _ hz).1
    unfold acquire
    by_cases hb : (useCache && Frac.blt cf.ageDays cacheDays) = true
    · simp [hb, hread]
    · simp only [hb, if_false, Bool.false_eq_true]
      unfold acquireLoop
      simp [hs, hread]
  exact ⟨key _ _, key _ _, key _ _⟩

/-- Shared concrete exception for witnesses and counterexamples. -/
def wConn : PyExc := ⟨ErrCat.connectionErr, "connection refused"⟩

/-- Concrete all-raising outcome list (long enough for every chain). -/
def wOutcomes : List FetchOutcome :=
  [.raises wConn, .raises wConn, .raises wConn, .raises wConn, .raises wConn]

/-- Concrete cache file content. -/
def wCacheCsv : CsvFile := ⟨["date", "daily_cases"], [["2021-01-01", "5"]]⟩

/-- The table wCacheCsv reads back as. -/
def wCacheTable : Table :=
  ⟨["date", "daily_cases"], [[Value.str "2021-01-01", Value.num (Frac.ofInt 5)]]⟩

/-- A concrete stale cache file: age 10 days. -/
def wCache : CacheFile := ⟨wCacheCsv, 10⟩

/-- Witness for C1: all sources raise, a 10-day-old cache and
cache_days = 1 still yield the cached table for all three kinds. -/
theorem thm_C1_witness :
    (acquireVaccination "2021-06-01" wOutcomes (some wCache) true 1).result =
        Except.ok wCacheTable ∧
    (acquireDailyStats wOutcomes (some wCache) true 1).result = Except.ok wCacheTable ∧
    (acquireRegional wOutcomes (some wCache) true 1).result = Except.ok wCacheTable :=
  thm_C1_stale_cache_fallback "2021-06-01" wOutcomes wCache wCacheTable true 1
    (by decide) (by decide)

/-! Claim C2. -/

/-- C2: for every dataset kind, if every source adapter raises and no
cache file exists, acquire raises the fatal aggregated error whose log
has one entry per attempted source, each with a nonempty category and
a nonempty rendered message; and this is the only way an error escapes
acquire: with a readable cache present no error escapes, and with no
cache the escaping error is always the aggregated one. -/
theorem thm_C2_fatal_no_cache
    (today : String) (ov od og : List FetchOutcome) (u : Bool) (d : Frac)
    (hv : ∀ o ∈ ov, o.isRaises = true) (hv5 : ov.length = 5)
    (hd : ∀ o ∈ od, o.isRaises = true) (hd4 : od.length = 4)
    (hg : ∀ o ∈ og, o.isRaises = true) (hg3 : og.length = 3) :
    (∃ log, (acquireVaccination today ov none u d).result =
        Except.error (AcqError.allSourcesFailed log) ∧ log.length = 5 ∧
        ∀ le ∈ log, 0 < le.category.length ∧ 0 < (renderLogEntry le).length) ∧
    (∃ log, (acquireDailyStats od none u d).result =
        Except.error (AcqError.allSourcesFailed log) ∧ log.length = 4 ∧
        ∀ le ∈ log, 0 < le.category.length ∧ 0 < (renderLogEntry le).length) ∧
    (∃ log, (acquireRegional og none u d).result =
        Except.error (AcqError.allSourcesFailed log) ∧ log.length = 3 ∧
        ∀ le ∈ log, 0 < le.category.length ∧ 0 < (renderLogEntry le).length) ∧
    (∀ (fmt : String → Table → Except PyExc Table) (env : List (String × FetchOutcome))
        (cf : CacheFile) (u2 : Bool) (d2 : Frac) (t2 : Table),
        readCsv cf.content = some t2 →
        ∀ eAcq, (acquire fmt env (some cf) u2 d2).result ≠ Except.error eAcq) ∧
    (∀ (fmt : String → Table → Except PyExc Table) (env : List (String × FetchOutcome))
        (u2 : Bool) (d2 : Frac) (eAcq : AcqError),
        (acquire fmt env none u2 d2).result = Except.error eAcq →
        ∃ log, eAcq = AcqError.allSourcesFailed log) := by
  have key : ∀ (fmt : String → Table → Except PyExc Table) (names : List String)
      (outs : List FetchOutcome) (k : Nat),
      (∀ o ∈ outs, o.isRaises = true) → outs.length = k → names.length = k →
      ∃ log, (acquire fmt (names.zip outs) none u d).result =
        Except.error (AcqError.allSourcesFailed log) ∧ log.length = k ∧
        ∀ le ∈ log, 0 < le.category.length ∧ 0 < (renderLogEntry le).length := by
    intro fmt names outs k hall hlen hnlen
    have hz : ∀ p ∈ names.zip outs, p.2.isRaises = true := by
      intro p hp
      exact hall p.2 (List.of_mem_zip (by simpa using hp)).2
    have hrc := runChain_allRaises fmt _ hz
    refine ⟨(runChain fmt (names.zip outs)).log, ?_, ?_, ?_⟩
    · unfold acquire acquireLoop
      simp [hrc.1]
    · rw [hrc.2.1, List.length_zip, hlen, hnlen]
      exact Nat.min_self k
    · intro le hle
      exact ⟨hrc.2.2 le hle, renderLogEntry_length_pos le (hrc.2.2 le hle)⟩
  refine ⟨key _ vaccinationSources ov 5 hv hv5 (by decide),
          key _ dailyStatsSources od 4 hd hd4 (by decide),
          key _ regionalSources og 3 hg hg3 (by decide), ?_, ?_⟩
  · intro fmt env cf u2 d2 t2 hread eAcq
    obtain ⟨rt, hrt⟩ := acquire_ok_of_readable fmt env cf u2 d2 t2 hread
    simp [hrt]
  · intro fmt env u2 d2 eAcq h
    simp only [acquire, acquireLoop] at h
    cases hs : (runChain fmt env).success with
    | some ft => simp [hs] at h
    | none =>
      simp [hs] at h
      exact ⟨(runChain fmt env).log, h.symm⟩

/-- Witness for C2: concrete all-raising chains of the right arities
with no cache, plus concrete instances of the only-escape parts. -/
theorem thm_C2_witness :
    ((∃ log, (acquireVaccination "2021-06-01" wOutcomes none true 1).result =
        Except.error (AcqError.allSourcesFailed log) ∧ log.length = 5 ∧
        ∀ le ∈ log, 0 < le.category.length ∧ 0 < (renderLogEntry le).length) ∧
      (∃ log, (acquireDailyStats (wOutcomes.take 4) none true 1).result =
        Except.error (AcqError.allSourcesFailed log) ∧ log.length = 4 ∧
        ∀ le ∈ log, 0 < le.category.length ∧ 0 < (renderLogEntry le).length) ∧
      (∃ log, (acquireRegional (wOutcomes.take 3) none true 1).result =
        Except.error (AcqError.allSourcesFailed log) ∧ log.length = 3 ∧
        ∀ le ∈ log, 0 < le.category.length ∧ 0 < (renderLogEntry le).length) ∧
      (∀ (fmt : String → Table → Except PyExc Table) (env : List (String × FetchOutcome))
          (cf : CacheFile) (u2 : Bool) (d2 : Frac) (t2 : Table),
          readCsv cf.content = some t2 →
          ∀ eAcq, (acquire fmt env (some cf) u2 d2).result ≠ Except.error eAcq) ∧
      (∀ (fmt : String → Table → Except PyExc Table) (env : List (String × FetchOutcome))
          (u2 : Bool) (d2 : Frac) (eAcq : AcqError),
          (acquire fmt env none u2 d2).result = Except.error eAcq →
          ∃ log, eAcq = AcqError.allSourcesFailed log)) :=
  thm_C2_fatal_no_cache "2021-06-01" wOutcomes (wOutcomes.take 4) (wOutcomes.take 3)
    true 1 (by decide) (by decide) (by decide) (by decide) (by decide) (by decide)

/-! Claim C3. -/

/-- C3: for every dataset kind, with use_cache true and a readable
cache file strictly younger than cache_days, acquire returns the
cached table immediately, leaves the cache unchanged and invokes no
source adapter. -/
theorem thm_C3_fresh_cache
    (today : String) (outcomes : List FetchOutcome) (cf : CacheFile) (t : Table)
    (cacheDays : Frac)
    (hfresh : Frac.blt cf.ageDays cacheDays = true)
    (hread : readCsv cf.content = some t) :
    acquireVaccination today outcomes (some cf) true cacheDays =
      ⟨Except.ok t, some cf, []⟩ ∧
    acquireDailyStats outcomes (some cf) true cacheDays = ⟨Except.ok t, some cf, []⟩ ∧
    acquireRegional outcomes (some cf) true cacheDays = ⟨Except.ok t, some cf, []⟩ := by
  have key : ∀ (fmt : String → Table → Except PyExc Table) (names : List String),
      acquire fmt (names.zip outcomes) (some cf) true cacheDays =
        ⟨Except.ok t, some cf, []⟩ := by
    intro fmt names
    unfold acquire
    simp [hfresh, hread]
  exact ⟨key _ _, key _ _, key _ _⟩

/-- Witness for C3: a half-day-old cache with cache_days 1 is returned
directly with no source invoked. -/
theorem thm_C3_witness :
    acquireVaccination "2021-06-01" wOutcomes (some ⟨wCacheCsv, normFrac 1 2⟩) true 1 =
      ⟨Except.ok wCacheTable, some ⟨wCacheCsv, normFrac 1 2⟩, []⟩ ∧
    acquireDailyStats wOutcomes (some ⟨wCacheCsv, normFrac 1 2⟩) true 1 =
      ⟨Except.ok wCacheTable, some ⟨wCacheCsv, normFrac 1 2⟩, []⟩ ∧
    acquireRegional wOutcomes (some ⟨wCacheCsv, normFrac 1 2⟩) true 1 =
      ⟨Except.ok wCacheTable, some ⟨wCacheCsv, normFrac 1 2⟩, []⟩ :=
  thm_C3_fresh_cache "2021-06-01" wOutcomes ⟨wCacheCsv, normFrac 1 2⟩ wCacheTable 1
    (by decide) (by decide)

/-! Claim C4. -/

/-- The loop invokes sources front to back, so the invoked list of
acquireLoop is exactly the invoked list of the chain pass. -/
theorem acquireLoop_invoked (fmt : String → Table → Except PyExc Table)
    (env : List (String × FetchOutcome)) (cache : Option CacheFile) :
    (acquireLoop fmt env cache).invoked = (runChain fmt env).invoked := by
  unfold acquireLoop
  cases hs : (runChain fmt env).success with
  | some ft => simp [hs]
  | none =>
    cases cache with
    | none => simp [hs]
    | some cf =>
      cases hr : readCsv cf.content with
      | some t => simp [hs, hr]
      | none => simp [hs, hr]

/-- When the source at one position returns non-empty and its
formatting succeeds, the chain pass attempts at most the sources up to
and including that position. -/
theorem runChain_invoked_le (fmt : String → Table → Except PyExc Table)
    (name : String) (t ft : Table) (post : List (String × FetchOutcome))
    (ht : t.isEmpty = false) (hf : fmt name t = Except.ok ft) :
    ∀ pre : List (String × FetchOutcome),
      (runChain fmt (pre ++ (name, FetchOutcome.returns t) :: post)).invoked.length ≤
        pre.length + 1 := by
  intro pre
  induction pre with
  | nil => simp [runChain, ht, hf]
  | cons p rest ih =>
    obtain ⟨n0, o0⟩ := p
    rw [List.cons_append]
    cases o0 with
    | raises e =>
      simp only [runChain, List.length_cons]
      exact Nat.succ_le_succ ih
    | returns t0 =>
      cases he : t0.isEmpty with
      | true =>
        simp only [runChain, he, if_true, List.length_cons]
        exact Nat.succ_le_succ ih
      | false =>
        cases hfmt : fmt n0 t0 with
        | ok x =>
          simp only [runChain, he, hfmt, Bool.false_eq_true, if_false, List.length_cons,
            List.length_nil]
          omega
        | error e =>
          simp only [runChain, he, hfmt, Bool.false_eq_true, if_false, List.length_cons]
          exact Nat.succ_le_succ ih

/-- C4 amended: if the adapter at position i returns without failing,
its result is non-empty AND the per-source formatting of that result
succeeds, then no adapter at any later position is invoked during the
acquisition.  (As stated, without the formatting proviso, the claim is
refuted by thm_C4_counterexample: the formatting runs inside the same
try block, and when it raises the loop continues.) -/
theorem thm_C4_amended (fmt : String → Table → Except PyExc Table)
    (pre : List (String × FetchOutcome)) (name : String) (t ft : Table)
    (post : List (String × FetchOutcome)) (cache : Option CacheFile)
    (u : Bool) (d : Frac)
    (ht : t.isEmpty = false) (hf : fmt name t = Except.ok ft) :
    (acquire fmt (pre ++ (name, FetchOutcome.returns t) :: post) cache u d).invoked.length ≤
      pre.length + 1 := by
  unfold acquire
  cases cache with
  | none =>
    rw [acquireLoop_invoked]
    exact runChain_invoked_le fmt name t ft post ht hf pre
  | some cf =>
    by_cases hb : (u && Frac.blt cf.ageDays d) = true
    · cases hr : readCsv cf.content with
      | some t2 => simp [hb, hr]
      | none => simp [hb, hr]
    · simp only [hb, Bool.false_eq_true, if_false]
      rw [acquireLoop_invoked]
      exact runChain_invoked_le fmt name t ft post ht hf pre

/-- An OWID return that passes the adapter validation but whose date
cell cannot be parsed by the formatter. -/
def cxBadOwid : Table :=
  ⟨["date", "total_vaccinations", "people_vaccinated", "people_fully_vaccinated"],
   [[Value.str "not a date", Value.num 5, Value.num 3, Value.num 2]]⟩

/-- Vaccination chain outcomes: KDCA and MOHW raise, OWID returns
cxBadOwid, WHO and OSS Community raise. -/
def cxEnvC4 : List FetchOutcome :=
  [.raises wConn, .raises wConn, .returns cxBadOwid, .raises wConn, .raises wConn]

/-- Counterexample to C4 as stated: in the vaccination chain the OWID
adapter at position 2 returns without failing and non-empty — the
table passes the adapter validation — yet the formatting step raises
inside the same try block, so WHO and OSS Community at the later
positions are still invoked. -/
theorem thm_C4_counterexample :
    cxEnvC4.get? 2 = some (FetchOutcome.returns cxBadOwid) ∧
    cxBadOwid.isEmpty = false ∧
    owidValidate cxBadOwid = Except.ok cxBadOwid ∧
    formatVaccination "2021-06-01" "OWID" cxBadOwid =
      Except.error ⟨ErrCat.valueErr, "time data does not match format"⟩ ∧
    (acquireVaccination "2021-06-01" cxEnvC4 none true 1).invoked =
      ["KDCA", "MOHW", "OWID", "WHO", "OSS Community"] := by
  decide

/-- A small non-empty table. -/
def wSmallT : Table := ⟨["a"], [[Value.num 1]]⟩

/-- Witness for the amended C4 at a concrete chain: the second
regional source succeeds, so at most two sources are invoked. -/
theorem thm_C4_witness :
    (acquire regionalFormat
        ([("KDCA Regional", FetchOutcome.raises wConn)] ++
          ("MOHW Regional", FetchOutcome.returns wSmallT) ::
            [("Web Scraping", FetchOutcome.raises wConn)]) none false 1).invoked.length ≤ 2 :=
  thm_C4_amended regionalFormat [("KDCA Regional", FetchOutcome.raises wConn)]
    "MOHW Regional" wSmallT wSmallT [("Web Scraping", FetchOutcome.raises wConn)]
    none false 1 (by decide) (by decide)

/-! Claim C5. -/

/-- Does the chain skip this source: the planned fetch raises, or the
returned table is empty, or the per-source formatting raises. -/
def sourceFails (fmt : String → Table → Except PyExc Table)
    (p : String × FetchOutcome) : Bool :=
  match p.2 with
  | .raises _ => true
  | .returns t0 =>
    t0.isEmpty ||
      (match fmt p.1 t0 with
       | .ok _ => false
       | .error _ => true)

/-- After any run of skipped sources, the first source whose fetch and
format succeed determines the chain result. -/
theorem runChain_first_success (fmt : String → Table → Except PyExc Table)
    (name : String) (t ft : Table) (post : List (String × FetchOutcome))
    (ht : t.isEmpty = false) (hf : fmt name t = Except.ok ft) :
    ∀ pre, (∀ p ∈ pre, sourceFails fmt p = true) →
      (runChain fmt (pre ++ (name, FetchOutcome.returns t) :: post)).success = some ft := by
  intro pre
  induction pre with
  | nil => intro _; simp [runChain, ht, hf]
  | cons p rest ih =>
    intro h
    obtain ⟨n0, o0⟩ := p
    have h0 := h (n0, o0) (by simp)
    have hrest := ih (fun q hq => h q (by simp [hq]))
    rw [List.cons_append]
    cases o0 with
    | raises e => simpa [runChain] using hrest
    | returns t0 =>
      cases he : t0.isEmpty with
      | true => simpa [runChain, he] using hrest
      | false =>
        cases hfmt : fmt n0 t0 with
        | ok x => simp [sourceFails, he, hfmt] at h0
        | error e => simpa [runChain, he, hfmt] using hrest

/-- C5 amended: for the Vaccination and DailyStats kinds — and any
format function — when the resolver reaches a source returning a
non-empty table whose formatting succeeds, the acquire operation
persists the FORMATTED table to the cache and returns it (normalize
before persist and return).  For the Regional kind the format step is
the identity: the resolved raw table itself is persisted and returned,
with no normalization into the canonical schema (which is what
thm_C5_counterexample exhibits against the claim as stated). -/
theorem thm_C5_amended :
    (∀ (fmt : String → Table → Except PyExc Table)
        (pre : List (String × FetchOutcome)) (name : String) (t ft : Table)
        (post : List (String × FetchOutcome)) (u : Bool) (d : Frac),
        (∀ p ∈ pre, sourceFails fmt p = true) →
        t.isEmpty = false → fmt name t = Except.ok ft →
        (acquire fmt (pre ++ (name, FetchOutcome.returns t) :: post) none u d).result =
            Except.ok ft ∧
        (acquire fmt (pre ++ (name, FetchOutcome.returns t) :: post) none u d).cacheAfter =
            some ⟨Table.toCsv ft, 0⟩) ∧
    (∀ (pre : List (String × FetchOutcome)) (name : String) (t : Table)
        (post : List (String × FetchOutcome)) (u : Bool) (d : Frac),
        (∀ p ∈ pre, sourceFails regionalFormat p = true) → t.isEmpty = false →
        (acquire regionalFormat (pre ++ (name, FetchOutcome.returns t) :: post) none u d).result =
            Except.ok t ∧
        (acquire regionalFormat (pre ++ (name, FetchOutcome.returns t) :: post)
            none u d).cacheAfter = some ⟨Table.toCsv t, 0⟩) := by
  have part1 : ∀ (fmt : String → Table → Except PyExc Table)
      (pre : List (String × FetchOutcome)) (name : String) (t ft : Table)
      (post : List (String × FetchOutcome)) (u : Bool) (d : Frac),
      (∀ p ∈ pre, sourceFails fmt p = true) →
      t.isEmpty = false → fmt name t = Except.ok ft →
      (acquire fmt (pre ++ (name, FetchOutcome.returns t) :: post) none u d).result =
          Except.ok ft ∧
      (acquire fmt (pre ++ (name, FetchOutcome.returns t) :: post) none u d).cacheAfter =
          some ⟨Table.toCsv ft, 0⟩ := by
    intro fmt pre name t ft post u d hpre ht hf
    have hs := runChain_first_success fmt name t ft post ht hf pre hpre
    unfold acquire acquireLoop
    simp [hs]
  exact ⟨part1, fun pre name t post u d hpre ht =>
    part1 regionalFormat pre name t t post u d hpre ht rfl⟩

/-- A raw scraped-shape table with no canonical regional column. -/
def cxRawRegional : Table := ⟨["지역", "1차"], [[Value.str "서울", Value.str "100"]]⟩

/-- Regional chain outcomes: the KDCA regional source raises, the MOHW
regional source returns the raw table, the scraper raises. -/
def cxEnvC5 : List FetchOutcome := [.raises wConn, .returns cxRawRegional, .raises wConn]

/-- Counterexample to C5 as stated: the Regional acquire persists and
returns the resolved raw table unchanged — its header has none of the
canonical regional columns, and running the normalizer on it would
have produced a different table — so no normalization into the
canonical schema happens on this path. -/
theorem thm_C5_counterexample :
    (acquireRegional cxEnvC5 none true 1).result = Except.ok cxRawRegional ∧
    (acquireRegional cxEnvC5 none true 1).cacheAfter =
      some ⟨Table.toCsv cxRawRegional, 0⟩ ∧
    cxRawRegional.header.contains "region" = false ∧
    cxRawRegional.header.contains "first_dose_percentage" = false ∧
    processScrapedRegionalData cxRawRegional ≠ Except.ok cxRawRegional := by
  decide

/-- Witness for the amended C5 at concrete inputs, exercising both the
generic part and the regional part. -/
theorem thm_C5_witness :
    ((acquire regionalFormat
        ([("KDCA Regional", FetchOutcome.raises wConn)] ++
          ("MOHW Regional", FetchOutcome.returns wSmallT) :: []) none true 1).result =
        Except.ok wSmallT ∧
      (acquire regionalFormat
        ([("KDCA Regional", FetchOutcome.raises wConn)] ++
          ("MOHW Regional", FetchOutcome.returns wSmallT) :: []) none true 1).cacheAfter =
        some ⟨Table.toCsv wSmallT, 0⟩) ∧
    ((acquire regionalFormat
        ([] ++ ("MOHW Regional", FetchOutcome.returns cxRawRegional) :: []) none false 1).result =
        Except.ok cxRawRegional ∧
      (acquire regionalFormat
        ([] ++ ("MOHW Regional", FetchOutcome.returns cxRawRegional) :: []) none
          false 1).cacheAfter = some ⟨Table.toCsv cxRawRegional, 0⟩) :=
  ⟨thm_C5_amended.1 regionalFormat [("KDCA Regional", FetchOutcome.raises wConn)]
      "MOHW Regional" wSmallT wSmallT [] true 1 (by decide) (by decide) rfl,
    thm_C5_amended.2 [] "MOHW Regional" cxRawRegional [] false 1 (by decide) (by decide)⟩

/-! Claim C6. -/

/-- Index characterization of the inner Johns Hopkins difference
pass. -/
theorem jhDiffs_get (i : Nat) : ∀ (prev : Int) (l : List Int),
    (jhDiffs prev l).get? i =
      match (prev :: l).get? i, l.get? i with
      | some a, some b => some (max 0 (b - a))
      | _, _ => none := by
  induction i with
  | zero =>
    intro prev l
    cases l <;> simp [jhDiffs]
  | succ k ih =>
    intro prev l
    cases l with
    | nil => simp [jhDiffs]
    | cons x rest => simpa [jhDiffs] using ih x rest

/-- Index characterization of the inner OWID difference pass. -/
theorem owidDiffs_get (i : Nat) : ∀ (prev : Frac) (l : List Frac),
    (owidDiffs prev l).get? i =
      match (prev :: l).get? i, l.get? i with
      | some a, some b => some (max 0 ((b - a).trunc))
      | _, _ => none := by
  induction i with
  | zero =>
    intro prev l
    cases l <;> simp [owidDiffs]
  | succ k ih =>
    intro prev l
    cases l with
    | nil => simp [owidDiffs]
    | cons x rest => simpa [owidDiffs] using ih x rest

/-- Length of the inner Johns Hopkins difference pass. -/
theorem jhDiffs_length : ∀ (prev : Int) (l : List Int), (jhDiffs prev l).length = l.length := by
  intro prev l
  induction l generalizing prev with
  | nil => simp [jhDiffs]
  | cons x rest ih => simpa [jhDiffs] using ih x

/-- Length of the inner OWID difference pass. -/
theorem owidDiffs_length : ∀ (prev : Frac) (l : List Frac),
    (owidDiffs prev l).length = l.length := by
  intro prev l
  induction l generalizing prev with
  | nil => simp [owidDiffs]
  | cons x rest ih => simpa [owidDiffs] using ih x

/-- Counterexample to C6 as stated: the OWID cumulative-to-daily
derivation of _format_vaccination_data yields a first daily value of 0
(diff followed by fillna(0)), not the first cumulative value, so on
the cumulative input [100, 150, 140, 200] it produces [0, 50, 0, 60]
instead of the claimed [100, 50, 0, 60]. -/
theorem thm_C6_counterexample :
    owidDeriveDaily [100, 150, 140, 200] = [0, 50, 0, 60] ∧
    ([0, 50, 0, 60] : List Int) ≠ [100, 50, 0, 60] := by
  decide

/-- C6 amended: both derivation sites clamp every negative difference
to zero, but they differ on the first entry.  The Johns Hopkins
processing keeps the (clamped) first cumulative value as the first
daily value, giving [100, 50, 0, 60] on the cited input; the OWID
vaccination formatting fills the undefined first difference with 0,
giving [0, 50, 0, 60] on the same input. -/
theorem thm_C6_amended :
    (∀ cum : List Int, (jhDeriveDaily cum).length = cum.length) ∧
    (∀ cum : List Int, (jhDeriveDaily cum).head? = cum.head?.map (fun x => max 0 x)) ∧
    (∀ (cum : List Int) (i : Nat),
      (jhDeriveDaily cum).get? (i + 1) =
        match cum.get? i, cum.get? (i + 1) with
        | some a, some b => some (max 0 (b - a))
        | _, _ => none) ∧
    jhDeriveDaily [100, 150, 140, 200] = [100, 50, 0, 60] ∧
    (∀ cum : List Frac, (owidDeriveDaily cum).length = cum.length) ∧
    (∀ cum : List Frac, (owidDeriveDaily cum).head? = cum.head?.map (fun _ => (0 : Int))) ∧
    (∀ (cum : List Frac) (i : Nat),
      (owidDeriveDaily cum).get? (i + 1) =
        match cum.get? i, cum.get? (i + 1) with
        | some a, some b => some (max 0 ((b - a).trunc))
        | _, _ => none) ∧
    owidDeriveDaily [100, 150, 140, 200] = [0, 50, 0, 60] := by
  refine ⟨?_, ?_, ?_, by decide, ?_, ?_, ?_, by decide⟩
  · intro cum
    cases cum with
    | nil => rfl
    | cons x rest => simpa [jhDeriveDaily] using jhDiffs_length x rest
  · intro cum
    cases cum <;> simp [jhDeriveDaily]
  · intro cum i
    cases cum with
    | nil => simp [jhDeriveDaily]
    | cons x rest => simpa [jhDeriveDaily] using jhDiffs_get i x rest
  · intro cum
    cases cum with
    | nil => rfl
    | cons x rest => simpa [owidDeriveDaily] using owidDiffs_length x rest
  · intro cum
    cases cum <;> simp [owidDeriveDaily]
  · intro cum i
    cases cum with
    | nil => simp [owidDeriveDaily]
    | cons x rest => simpa [owidDeriveDaily] using owidDiffs_get i x rest

/-! Claim C7. -/

/-- C7: a scraped Regional row whose localized region name is 서울
(mapping to Seoul), coming from a table with no population column,
normalizes to population int(POPULATION * 0.20) — the exact product
51000000 * 20/100 = 10200000, on which int() and round() agree — and
to first_dose_percentage round(first_dose / population * 100, 2). -/
theorem thm_C7_seoul (s : String) (f : Frac)
    (hparse : parseFloatL (chars (stripCommas s)) = some f) :
    processScrapedRegionalData ⟨["지역", "1차"], [[Value.str "서울", Value.str s]]⟩ =
      Except.ok ⟨["region", "first_dose", "population", "first_dose_percentage"],
        [[Value.str "Seoul", Value.num f, Value.num (Frac.ofInt 10200000),
          Value.num (round2 (f / Frac.ofInt 10200000 * 100))]]⟩ ∧
    (POPULATION * normFrac 20 100).trunc = 10200000 := by
  have h1 : scrapedToNum (Value.str s) = some (Value.num f) := by
    simp [scrapedToNum, hparse]
  have h2 : Frac.ofInt ((POPULATION * normFrac 20 100).trunc) = Frac.ofInt 10200000 := by
    decide
  refine ⟨?_, by decide⟩
  simp +decide [processScrapedRegionalData, convertCols, keywordAssign, addPct, getCol,
    colIdx, setCol, hasCol, mapRegionCell, popLookup, ratioPctCell, REGIONS, regionMapping,
    populationDistribution, optList, h1, h2, strHas, hasSubL, startsWithL, strLower,
    charLower, chars]

/-- Witness for C7 at the concrete scraped count 1,234: the population
is 10200000 and the percentage rounds to 0.01. -/
theorem thm_C7_witness :
    processScrapedRegionalData ⟨["지역", "1차"], [[Value.str "서울", Value.str "1,234"]]⟩ =
      Except.ok ⟨["region", "first_dose", "population", "first_dose_percentage"],
        [[Value.str "Seoul", Value.num 1234, Value.num (Frac.ofInt 10200000),
          Value.num (round2 (1234 / Frac.ofInt 10200000 * 100))]]⟩ ∧
    (POPULATION * normFrac 20 100).trunc = 10200000 :=
  thm_C7_seoul "1,234" 1234 (by decide)

/-! Claim C8. -/

/-- read_csv leaves a duplicate-free header unchanged. -/
theorem mangleDup_of_nodup : ∀ (l : List String) (seen : List String),
    l.Nodup → (∀ x ∈ l, x ∉ seen) → mangleDup seen l = l := by
  intro l
  induction l with
  | nil => intro seen _ _; rfl
  | cons h rest ih =>
    intro seen hnd hni
    have hcount : seen.count h = 0 := List.count_eq_zero.mpr (hni h (by simp))
    have hrest : mangleDup (h :: seen) rest = rest := by
      refine ih (h :: seen) (List.nodup_cons.mp hnd).2 ?_
      intro x hx
      simp only [List.mem_cons, not_or]
      exact ⟨fun hxh => (List.nodup_cons.mp hnd).1 (hxh ▸ hx), hni x (by simp [hx])⟩
    simp [mangleDup, hcount, hrest]

/-- C8: writing a table with at least one column and duplicate-free
column names (every canonical dataset satisfies both) to the cache
store and reading it back yields a table with identical column names
and identical row count. -/
theorem thm_C8_roundtrip (t : Table) (h1 : t.header ≠ []) (h2 : t.header.Nodup) :
    ∃ t2, readCsv (Table.toCsv t) = some t2 ∧ t2.header = t.header ∧
      t2.rows.length = t.rows.length := by
  have hne : t.header.isEmpty = false := by
    cases hh : t.header with
    | nil => exact absurd hh h1
    | cons a l => rfl
  refine ⟨⟨t.header, (t.rows.map (fun r => r.map renderValue)).map (fun r => r.map parseCell)⟩,
    ?_, rfl, by simp⟩
  unfold readCsv Table.toCsv
  simp only [hne, Bool.false_eq_true, if_false]
  rw [mangleDup_of_nodup t.header [] h2 (by simp)]

/-- Witness for C8: the concrete two-column cache table round-trips
with its header and row count intact. -/
theorem thm_C8_witness :
    ∃ t2, readCsv (Table.toCsv wCacheTable) = some t2 ∧
      t2.header = wCacheTable.header ∧ t2.rows.length = wCacheTable.rows.length :=
  thm_C8_roundtrip wCacheTable (by decide) (by decide)

/-! Claim C9. -/

/-- Every error the cell subtraction can raise is a TypeError. -/
theorem subCellsJh_error_cat (a b : Value) (e : PyExc)
    (h : subCellsJh a b = Except.error e) : e.cat = ErrCat.typeErr := by
  cases a <;> cases b <;> simp only [subCellsJh] at h <;> cases h <;> rfl

/-- Every error the clamping can raise is a TypeError. -/
theorem clampCellJh_error_cat (v : Value) (e : PyExc)
    (h : clampCellJh v = Except.error e) : e.cat = ErrCat.typeErr := by
  cases v <;> simp only [clampCellJh] at h <;> cases h <;> rfl

/-- Every error one parsed position can raise is a TypeError. -/
theorem jhStep_error_cat (prev : Option (Value × Value)) (cc cd : Value) (e : PyExc)
    (h : jhStep prev cc cd = Except.error e) : e.cat = ErrCat.typeErr := by
  cases prev with
  | none =>
    cases hc1 : clampCellJh cc with
    | error e1 =>
      cases hc2 : clampCellJh cd <;>
        · simp only [jhStep, hc1, hc2] at h
          cases h
          exact clampCellJh_error_cat _ _ hc1
    | ok c1 =>
      cases hc2 : clampCellJh cd with
      | error e2 =>
        simp only [jhStep, hc1, hc2] at h
        cases h
        exact clampCellJh_error_cat _ _ hc2
      | ok d1 => simp [jhStep, hc1, hc2] at h
  | some p =>
    cases hs1 : subCellsJh cc p.1 with
    | error e1 =>
      cases hs2 : subCellsJh cd p.2 <;>
        · simp only [jhStep, hs1, hs2] at h
          cases h
          exact subCellsJh_error_cat _ _ _ hs1
    | ok c0 =>
      cases hs2 : subCellsJh cd p.2 with
      | error e2 =>
        simp only [jhStep, hs1, hs2] at h
        cases h
        exact subCellsJh_error_cat _ _ _ hs2
      | ok d0 =>
        cases hc1 : clampCellJh c0 with
        | error e1 =>
          cases hc2 : clampCellJh d0 <;>
            · simp only [jhStep, hs1, hs2, hc1, hc2] at h
              cases h
              exact clampCellJh_error_cat _ _ hc1
        | ok c1 =>
          cases hc2 : clampCellJh d0 with
          | error e2 =>
            simp only [jhStep, hs1, hs2, hc1, hc2] at h
            cases h
            exact clampCellJh_error_cat _ _ hc2
          | ok d1 => simp [jhStep, hs1, hs2, hc1, hc2] at h

/-- Every error the per-date loop raises is a TypeError, from the
positional subtraction or the clamping at string cells. -/
theorem jhLoopCells_error_cat : ∀ (l : List (String × Value × Value))
    (prev : Option (Value × Value)) (e : PyExc),
    jhLoopCells prev l = Except.error e → e.cat = ErrCat.typeErr := by
  intro l
  induction l with
  | nil => intro prev e h; simp [jhLoopCells] at h
  | cons x rest ih =>
    intro prev e h
    obtain ⟨d, cc, cd⟩ := x
    cases hp : parseJhDate d with
    | none =>
      simp only [jhLoopCells, hp] at h
      exact ih _ e h
    | some ds =>
      simp only [jhLoopCells, hp] at h
      cases hstep : jhStep prev cc cd with
      | error e1 =>
        simp only [hstep] at h
        cases h
        exact jhStep_error_cat _ _ _ _ hstep
      | ok cd1 =>
        simp only [hstep] at h
        cases hr : jhLoopCells (some (cc, cd)) rest with
        | error e2 =>
          simp only [hr] at h
          cases h
          exact ih _ _ hr
        | ok l2 => simp [hr] at h

/-- When the per-date loop completes, it keeps at least one entry as
soon as one date column parses. -/
theorem jhLoopCells_ne_nil : ∀ (l : List (String × Value × Value))
    (prev : Option (Value × Value)) (out : List (String × Value × Value)),
    jhLoopCells prev l = Except.ok out →
    (∃ p ∈ l, parseJhDate p.1 ≠ none) → out ≠ [] := by
  intro l
  induction l with
  | nil => intro prev out _ hex; simp at hex
  | cons x rest ih =>
    intro prev out h hex
    obtain ⟨d, cc, cd⟩ := x
    cases hp : parseJhDate d with
    | some ds =>
      simp only [jhLoopCells, hp] at h
      cases hstep : jhStep prev cc cd with
      | error e1 => simp [hstep] at h
      | ok cd1 =>
        simp only [hstep] at h
        cases hr : jhLoopCells (some (cc, cd)) rest with
        | error e2 => simp [hr] at h
        | ok l2 =>
          simp only [hr] at h
          cases h
          simp
    | none =>
      simp only [jhLoopCells, hp] at h
      rcases hex with ⟨p, hpmem, hpp⟩
      rcases List.mem_cons.mp hpmem with rfl | hpx
      · exact absurd hp (by simpa using hpp)
      · exact ih (some (cc, cd)) out h ⟨p, hpx, hpp⟩

/-- C9 amended: _process_jh_data can never succeed, and every error it
raises lands in the except-Exception arm of the facade (an unexpected
failure); but the claimed np NameError at result construction is only
reached when the per-date loop completes without touching a string
cell.  On the canonical Johns Hopkins layout Country/Region contains a
slash, so it is treated as a date column, and the positional
difference at the first parseable date after it computes
int - "Korea, South" and raises TypeError inside the loop instead
(thm_C9_counterexample). -/
theorem thm_C9_amended :
    (∀ a b t : Table, processJhData a b ≠ Except.ok t) ∧
    (∀ (a b : Table) (e : PyExc), processJhData a b = Except.error e →
      branchLabel e.cat = "Unexpected error with ") ∧
    (∀ (casesDf deathsDf : Table) (rc rd : List Value)
        (out : List (String × Value × Value)),
      (filterRowsEq casesDf "Country/Region" koreaSouth).rows.head? = some rc →
      (filterRowsEq deathsDf "Country/Region" koreaSouth).rows.head? = some rd →
      (∃ c ∈ jhDateColumns (filterRowsEq casesDf "Country/Region" koreaSouth),
          parseJhDate c ≠ none) →
      jhLoopCells none
          ((jhDateColumns (filterRowsEq casesDf "Country/Region" koreaSouth)).zip
            ((((jhDateColumns (filterRowsEq casesDf "Country/Region" koreaSouth)).map
              (fun c => rc.getD
                ((colIdx (filterRowsEq casesDf "Country/Region" koreaSouth) c).getD 0)
                Value.null)).zip
              ((jhDateColumns (filterRowsEq casesDf "Country/Region" koreaSouth)).map
                (fun c => rd.getD
                  ((colIdx (filterRowsEq deathsDf "Country/Region" koreaSouth) c).getD 0)
                  Value.null))))) = Except.ok out →
      processJhData casesDf deathsDf =
        Except.error ⟨ErrCat.nameErr, "name np is not defined"⟩) := by
  have hnp : npIsBound = false := by decide
  refine ⟨?_, ?_, ?_⟩
  · intro a b t
    unfold processJhData
    simp only [hnp, Bool.false_eq_true, if_false]
    split
    · simp
    · split
      · split
        · simp
        · split
          · simp
          · simp
      · simp
  · intro a b e h
    unfold processJhData at h
    simp only [hnp, Bool.false_eq_true, if_false] at h
    split at h
    · injection h with h2; subst h2; rfl
    · split at h
      · split at h
        · rename_i e1 heq
          injection h with h2
          subst h2
          rw [jhLoopCells_error_cat _ none e1 heq]
          rfl
        · split at h
          · injection h with h2; subst h2; rfl
          · injection h with h2; subst h2; rfl
      · injection h with h2; subst h2; rfl
  · intro casesDf deathsDf rc rd out hhc hhd hdate hloop
    have hdne : (jhDateColumns (filterRowsEq casesDf "Country/Region" koreaSouth)).isEmpty
        = false := by
      rcases hdate with ⟨c, hcmem, _⟩
      cases hh : jhDateColumns (filterRowsEq casesDf "Country/Region" koreaSouth) with
      | nil => rw [hh] at hcmem; cases hcmem
      | cons a l => rfl
    have hout : out ≠ [] := by
      refine jhLoopCells_ne_nil _ none out hloop ?_
      rcases hdate with ⟨c, hcmem, hcparse⟩
      have hlenle : (jhDateColumns (filterRowsEq casesDf "Country/Region"
          koreaSouth)).length ≤
          ((((jhDateColumns (filterRowsEq casesDf "Country/Region" koreaSouth)).map
            (fun c => rc.getD
              ((colIdx (filterRowsEq casesDf "Country/Region" koreaSouth) c).getD 0)
              Value.null)).zip
            ((jhDateColumns (filterRowsEq casesDf "Country/Region" koreaSouth)).map
              (fun c => rd.getD
                ((colIdx (filterRowsEq deathsDf "Country/Region" koreaSouth) c).getD 0)
                Value.null)))).length := by
        simp [List.length_zip]
      have hfst := List.map_fst_zip _ _ hlenle
      rw [← hfst] at hcmem
      rcases List.mem_map.mp hcmem with ⟨p, hpmem, hpfst⟩
      exact ⟨p, hpmem, by rw [hpfst]; exact hcparse⟩
    unfold processJhData
    simp only [hdne, Bool.false_eq_true, if_false, hhc, hhd, hnp, hloop]
    split
    · rename_i hemp
      exact absurd (by simpa using hemp) hout
    · rfl

/-- Concrete Johns Hopkins table in the canonical column layout: the
Country/Region column sits between Province/State and the date
columns, and its South Korea cell is the string Korea, South. -/
def wJhT : Table :=
  ⟨["Province/State", "Country/Region", "Lat", "Long", "1/22/20", "1/23/20"],
   [[Value.null, Value.str "Korea, South", Value.num 36, Value.num 128,
     Value.num 1, Value.num 3]]⟩

/-- Counterexample to C9 as stated: on the canonical layout — South
Korea rows present and parseable date columns present — the function
raises TypeError inside the per-date loop (the positional difference
at the first parseable date column subtracts the Korea, South string
cell of the Country/Region column, itself a date column because its
name contains a slash), not the claimed NameError at the result
construction. -/
theorem thm_C9_counterexample :
    (filterRowsEq wJhT "Country/Region" koreaSouth).rows ≠ [] ∧
    (∃ c ∈ jhDateColumns (filterRowsEq wJhT "Country/Region" koreaSouth),
        parseJhDate c ≠ none) ∧
    processJhData wJhT wJhT =
      Except.error ⟨ErrCat.typeErr, "unsupported operand type for sub"⟩ ∧
    ErrCat.typeErr ≠ ErrCat.nameErr := by
  decide

/-- A Johns Hopkins shaped table whose Country/Region column comes
after every date column, so the per-date loop never subtracts its
string cell and completes; only then is the np NameError reached. -/
def wJhT2 : Table :=
  ⟨["1/22/20", "1/23/20", "Country/Region"],
   [[Value.num 1, Value.num 3, Value.str "Korea, South"]]⟩

/-- Witness for the amended C9 at concrete inputs: wJhT2 can never
succeed, its error is an unexpected failure, and because its loop
completes it is exactly the np NameError. -/
theorem thm_C9_witness :
    (processJhData wJhT2 wJhT2 ≠ Except.ok wSmallT) ∧
    branchLabel (ErrCat.nameErr) = "Unexpected error with " ∧
    processJhData wJhT2 wJhT2 = Except.error ⟨ErrCat.nameErr, "name np is not defined"⟩ :=
  ⟨thm_C9_amended.1 wJhT2 wJhT2 wSmallT,
    thm_C9_amended.2.1 wJhT2 wJhT2 ⟨ErrCat.nameErr, "name np is not defined"⟩ (by decide),
    thm_C9_amended.2.2 wJhT2 wJhT2
      [Value.num 1, Value.num 3, Value.str "Korea, South"]
      [Value.num 1, Value.num 3, Value.str "Korea, South"]
      [("2020-01-22", Value.num 1, Value.num 1), ("2020-01-23", Value.num 2, Value.num 2)]
      (by decide) (by decide) (by decide) (by decide)⟩

/-! Claim C10. -/

/-- The fallback part of acquire leaves the cache alone unless the
chain succeeded, in which case it writes the serialized result. -/
theorem acquireLoop_frame (fmt : String → Table → Except PyExc Table)
    (env : List (String × FetchOutcome)) (c0 : Option CacheFile) :
    (acquireLoop fmt env c0).cacheAfter = c0 ∨
    ∃ ft, (acquireLoop fmt env c0).result = Except.ok ft ∧
      (acquireLoop fmt env c0).cacheAfter = some ⟨Table.toCsv ft, 0⟩ ∧
      (runChain fmt env).success = some ft := by
  unfold acquireLoop
  cases hs : (runChain fmt env).success with
  | some ft => exact Or.inr ⟨ft, by simp [hs], by simp [hs], rfl⟩
  | none =>
    cases c0 with
    | none => exact Or.inl (by simp [hs])
    | some cf =>
      cases hr : readCsv cf.content with
      | some t => exact Or.inl (by simp [hs, hr])
      | none => exact Or.inl (by simp [hs, hr])

/-- C10: on every path of the acquire operation the cache file is
either left exactly as it was (fresh-cache return, stale-cache
fallback, fatal raise, unreadable cache) or — only when the source
chain produced a successful fetch-and-format result — overwritten
with precisely the serialization of the returned formatted table. -/
theorem thm_C10_cache_frame (fmt : String → Table → Except PyExc Table)
    (env : List (String × FetchOutcome)) (cache : Option CacheFile)
    (u : Bool) (d : Frac) :
    (acquire fmt env cache u d).cacheAfter = cache ∨
    ∃ ft, (acquire fmt env cache u d).result = Except.ok ft ∧
      (acquire fmt env cache u d).cacheAfter = some ⟨Table.toCsv ft, 0⟩ ∧
      (runChain fmt env).success = some ft := by
  cases cache with
  | none =>
    unfold acquire
    exact acquireLoop_frame fmt env none
  | some cf =>
    unfold acquire
    by_cases hb : (u && Frac.blt cf.ageDays d) = true
    · cases hr : readCsv cf.content with
      | some t => exact Or.inl (by simp [hb, hr])
      | none => exact Or.inl (by simp [hb, hr])
    · simp only [hb, Bool.false_eq_true, if_false]
      exact acquireLoop_frame fmt env (some cf)

end CovidFetch
